import Mathlib

/-!
Verification model of the AbendInfo crash-forensics layer
(`src/AbendHandler.cpp`, `src/AbendInfo.h`).

The embedding follows the source in the full-featured build configuration:
`ABENDINFO_OPTION = 1`, `ABENDINFO_IDENTIFY_SDK_PANIC = 1`,
`ABENDINFO_HEAP_MONITOR = 1`, `ABENDINFO_REPLACE_ALL_DEFAULT_EXC_HANDLERS = 1`,
`ABENDINFO_GASP_SIZE = 64` (this is the configuration whose field offsets the
source pins down with static_asserts: epc1 at 36, intlevel at 40, idx at 44).

Machine integers are modelled as `Nat`; reductions modulo `2 ^ 32` are written
explicitly at the points where 32-bit overflow can occur in the C code.
-/

namespace Abend

/-! Reset reason codes from the SDK's `user_interface.h` (`rst_reason`). -/

def REASON_DEFAULT_RST : Nat := 0

def REASON_WDT_RST : Nat := 1

def REASON_EXCEPTION_RST : Nat := 2

def REASON_SOFT_WDT_RST : Nat := 3

def REASON_SOFT_RESTART : Nat := 4

def REASON_DEEP_SLEEP_AWAKE : Nat := 5

def REASON_EXT_SYS_RST : Nat := 6

/-! Software-defined reset reason extensions (`enum rst_reason_sw`,
AbendHandler.cpp lines 97-101). -/

def REASON_SDK_PANIC : Nat := 101

def REASON_USER_STACK_SMASH : Nat := 253

def REASON_USER_SWEXCEPTION_RST : Nat := 254

/-- Boot ROM `__divsi3` divide-by-zero trap address
(AbendHandler.cpp line 71). -/
def divide_by_0_exception : Nat := 0x4000dce5

/-- Boot ROM default unhandled-exception handler address
(AbendHandler.cpp line 355, `ROM_xtos_unhandled_exception`). -/
def ROM_xtos_unhandled_exception : Nat := 0x4000dc44

/-- Capacity of the last-gasp text buffer (`ABENDINFO_GASP_SIZE`, default 64). -/
def gaspSize : Nat := 64

/-- The persisted fault record (`struct AbendInfo`, AbendInfo.h lines 72-90),
in the configuration with the heap monitor and SDK-panic identification
enabled.  `gasp` is the 64-byte last-gasp character buffer; `crc` must be the
last field (the checksum covers every byte before it). -/
structure AbendInfo where
  uptime : Nat
  reason : Nat
  exccause : Nat
  oom : Nat
  heap : Nat
  heap_min : Nat
  low_count : Nat
  last : Nat
  epc1 : Nat
  intlevel : Nat
  idx : Nat
  gasp : List Nat
  crc : Nat
deriving DecidableEq, Repr

/-- The all-zero record: the result of `memset(&r, 0, sizeof(struct AbendInfo))`. -/
def zeroAbendInfo : AbendInfo :=
  { uptime := 0, reason := 0, exccause := 0, oom := 0, heap := 0, heap_min := 0
    low_count := 0, last := 0, epc1 := 0, intlevel := 0, idx := 0
    gasp := List.replicate gaspSize 0, crc := 0 }

/-- Little-endian byte serialization of the low `n` bytes of `x`. -/
def leBytes (n x : Nat) : List Nat :=
  (List.range n).map fun i => x / 256 ^ i % 256

/-- The bytes covered by the record checksum: every field before `crc`, laid
out as in the C struct (`crc32(&abendInfo, offsetof(struct AbendInfo, crc))`,
AbendHandler.cpp line 296).  `uptime` is a 64-bit `time_t`; all other scalar
fields are 32-bit; `gasp` contributes its 64 raw bytes.  The layout matches
the source's static_asserts (epc1 at offset 36, intlevel at 40, idx at 44). -/
def crcInputBytes (r : AbendInfo) : List Nat :=
  leBytes 8 r.uptime ++ leBytes 4 r.reason ++ leBytes 4 r.exccause ++
  leBytes 4 r.oom ++ leBytes 4 r.heap ++ leBytes 4 r.heap_min ++
  leBytes 4 r.low_count ++ leBytes 4 r.last ++ leBytes 4 r.epc1 ++
  leBytes 4 r.intlevel ++ leBytes 4 r.idx ++ r.gasp.map (· % 256)

/-- One byte step of the checksum mixing function. -/
def crc32Byte (crc c : Nat) : Nat :=
  (crc * 31 + c) % 2 ^ 32

/-- Modelled from the spec: the platform checksum routine `crc32` belongs to
the Arduino core, outside this repository; the spec only requires a 32-bit
checksum computed over the bytes of all fields preceding `crc`.  It is
modelled as a Horner-style 32-bit accumulator over the byte sequence
(initial value 0xffffffff); no claim below depends on the particular mixing
function, only on the checksum being a deterministic function of the
preceding bytes. -/
def crc32 (bytes : List Nat) : Nat :=
  bytes.foldl crc32Byte 0xffffffff

/-- Checksum of a record over all fields preceding `crc`
(`crc32(&abendInfo, offsetof(struct AbendInfo, crc))`). -/
def crcOfRecord (r : AbendInfo) : Nat :=
  crc32 (crcInputBytes r)

/-- The validity test performed by `abendHandlerInstall`
(AbendHandler.cpp line 414): stored checksum equals the checksum recomputed
over all preceding fields. -/
def abendCrcOK (r : AbendInfo) : Bool :=
  r.crc == crcOfRecord r

/-- The last-gasp buffering hook `_gasp_putc` (AbendHandler.cpp lines
123-129): give up once fewer than two bytes remain (`sizeof(gasp) - 2 <=
idx`), drop carriage returns and line feeds, otherwise append the character
and keep the buffer NUL-terminated. -/
def gaspPutc (r : AbendInfo) (c : Nat) : AbendInfo :=
  if gaspSize - 2 ≤ r.idx then r
  else if c != 13 && c != 10 then
    { r with gasp := (r.gasp.set r.idx c).set (r.idx + 1) 0, idx := r.idx + 1 }
  else r

/-- The replacement `ets_printf` (AbendHandler.cpp lines 147-211, hand-written
assembly), as a state transformer on the live record.

Inputs: `live` is `abendInfo`; `msg` is the sequence of characters the Boot
ROM `ets_printf` emits through the installed `putc2` hook `_gasp_putc`
(empty when the hook is not installed); `retAddr` is the caller's return
address (register a0); `mem` gives the byte at each code address; `ps` is the
processor status register.

Behaviour: if `live.epc1` is already nonzero a previous event was captured,
so the gasp index is not cleared and the self-loop check is skipped.
Otherwise the index is cleared, the ROM printf runs, and the three bytes at
the return address are compared against the `loop: j loop` encoding
`06 ff ff`; on a match the return address and the low four PS bits
(INTLEVEL) are stored and an `ill` instruction is executed (the returned
flag), after uninstalling `putc2`. -/
def etsPrintfStep (live : AbendInfo) (msg : List Nat) (retAddr : Nat)
    (mem : Nat → Nat) (ps : Nat) : AbendInfo × Bool :=
  let live1 := if live.epc1 == 0 then { live with idx := 0 } else live
  let live2 := msg.foldl gaspPutc live1
  if live.epc1 == 0 then
    let w := mem retAddr % 256 + 256 * (mem (retAddr + 1) % 256) +
             65536 * (mem (retAddr + 2) % 256)
    if w == 0xffff06 then
      ({ live2 with epc1 := retAddr, intlevel := ps % 16 }, true)
    else (live2, false)
  else (live2, false)

/-- The platform reset-information structure (`struct rst_info`), restricted
to the fields the code reads or writes: reason code, fault cause, fault
address `epc1` and breakpoint address `epc2`. -/
structure RstInfo where
  reason : Nat
  exccause : Nat
  epc1 : Nat
  epc2 : Nat
deriving DecidableEq, Repr

/-- Valid instruction address test `is_pc_valid` (AbendHandler.cpp lines
77-83): `XCHAL_INSTRAM0_VADDR = 0x40000000` up to
`XCHAL_INSTROM0_VADDR + XCHAL_INSTROM0_SIZE = 0x40200000 + 0x100000`. -/
def is_pc_valid (pc : Nat) : Bool :=
  decide (0x40000000 ≤ pc ∧ pc < 0x40200000 + 0x100000)

/-- The crash classifier `SHARE_CUSTOM_CRASH_CB__DEBUG_ESP_ABENDINFO`
(AbendHandler.cpp lines 232-297), the custom crash callback run at the end of
Postmortem.  Inputs beyond the reset info and the live record: `excsave1` is
the return-address register sampled by `rsr.excsave1`; `oom`, `heapFree`,
`heapMin` are the allocator statistics read by `abendUpdateHeapStats`;
`micros` is `micros64()`.  Returns the patched reset info and the updated,
re-checksummed live record. -/
def customCrashCallback (rst : RstInfo) (live : AbendInfo) (excsave1 : Nat)
    (oom heapFree heapMin micros : Nat) : RstInfo × AbendInfo :=
  let live := { live with uptime := micros / 1000000 }
  let rst :=
    if rst.reason == REASON_EXCEPTION_RST then
      if rst.exccause == 20 && !is_pc_valid rst.epc1 then
        { rst with epc1 := excsave1 }
      else if rst.epc2 != 0 then rst
      else if rst.exccause == 0 then
        if live.epc1 != 0 then
          { rst with epc1 := live.epc1, reason := REASON_SDK_PANIC }
        else if rst.epc1 == divide_by_0_exception then
          { rst with exccause := 6, epc1 := excsave1 }
        else rst
      else rst
    else rst
  let live :=
    if live.epc1 == 0 || live.idx == 0 then
      { live with gasp := live.gasp.set 0 0 }
    else live
  let live := { live with oom := oom, heap := heapFree, heap_min := heapMin }
  let live :=
    { live with epc1 := rst.epc1, reason := rst.reason, exccause := rst.exccause }
  (rst, { live with crc := crcOfRecord live })

/-- Abstract address standing for the `_gasp_putc` hook installed into the
`putc2` vector by `abendHandlerInstall`; its concrete value is irrelevant. -/
def gaspPutcAddr : Nat := 0x40201000

/-- Abstract value standing for the contents of the replacement debug
exception vector stub `new_debug_vector` copied over `_DebugExceptionVector`
(AbendHandler.cpp lines 309-322, 396). -/
def newDebugVectorCode : Nat := 0xdb9

/-- The observable machine and program state touched by
`abendHandlerInstall`: the 64-entry exception handler dispatch table
`_xtos_exc_handler_table` (entries as handler addresses), the SDK's unified
C exception handler `_xtos_c_handler_table[0]`, the debug exception vector
contents, the `putc1`/`putc2` output hooks, the residual fault-context
registers, the two fault records and Arduino's `resetInfo` copy. -/
structure SystemState where
  excTable : List Nat
  cHandler0 : Nat
  debugVector : Nat
  putc1 : Nat
  putc2 : Nat
  epc2 : Nat
  epc3 : Nat
  excsave2 : Nat
  depc : Nat
  live : AbendInfo
  promoted : AbendInfo
  rst : RstInfo
deriving DecidableEq, Repr

/-- Read of an exception-table slot (`_xtos_exc_handler_table[cause]`). -/
def tblEntry (t : List Nat) (i : Nat) : Nat :=
  (t[i]?).getD 0

/-- Modelled from the spec: the ROM routine `_xtos_set_exception_handler`
(external to the repository) as the spec describes its effect here —
redirect the table slot for `cause` to the given handler. -/
def xtosSetExceptionHandler (t : List Nat) (cause handler : Nat) : List Nat :=
  t.set cause handler

/-- Guarded slot replacement `replace_exception_handler_on_match`
(AbendHandler.cpp lines 341-350): replace the slot only when it still holds
`match` (or when `match` is NULL). -/
def replace_exception_handler_on_match (t : List Nat)
    (cause mtch repl : Nat) : List Nat :=
  if tblEntry t cause == mtch || mtch == 0 then
    xtosSetExceptionHandler t cause repl
  else t

/-- One iteration of the `install_unhandled_exception_handler` loop body
(AbendHandler.cpp lines 360-365): guarded replacement of slot `j` against
the Boot ROM default handler. -/
def replaceStep (unified : Nat) (acc : List Nat) (j : Nat) : List Nat :=
  replace_exception_handler_on_match acc j ROM_xtos_unhandled_exception unified

/-- The loop of `install_unhandled_exception_handler` (AbendHandler.cpp lines
357-366): for each of the 64 possible EXCCAUSE values, redirect the slot to
`unified` (`_xtos_c_handler_table[0]`) when it still holds the Boot ROM's
default `_xtos_unhandled_exception` handler. -/
def install_unhandled_exception_handler (unified : Nat) (t : List Nat) : List Nat :=
  (List.range 64).foldl (replaceStep unified) t

/-- The handler-installation block of `abendHandlerInstall` executed when no
debugger is present (AbendHandler.cpp lines 377-408): replace a flash-resident
`putc1` hook with NULL, install `_gasp_putc` as `putc2`, redirect the default
exception table slots to the unified handler, overwrite the debug exception
vector with the redirect stub and clear the residual fault-context
registers. -/
def installHandlers (st : SystemState) : SystemState :=
  let st := if 0x40200000 ≤ st.putc1 then { st with putc1 := 0 } else st
  let st := { st with putc2 := gaspPutcAddr }
  let st :=
    { st with excTable := install_unhandled_exception_handler st.cHandler0 st.excTable }
  let st := { st with debugVector := newDebugVectorCode }
  { st with epc2 := 0, epc3 := 0, excsave2 := 0, depc := 0 }

/-- The record promotion pass at the end of `abendHandlerInstall`
(AbendHandler.cpp lines 410-443).  Reads the boot's reset reason from the
platform reset info, validates the live record's checksum, promotes the live
record when the reset reason or the software reason tag qualifies (patching
Arduino's `resetInfo` when `update` is requested and a fault address was
captured), zeroes the promoted record otherwise, then zeroes the live record
and re-initializes the heap-monitor interval timestamp to `now`
(`millis()`). -/
def promotionPass (update : Bool) (now : Nat) (st : SystemState) : SystemState :=
  let reason := st.rst.reason
  let ok := abendCrcOK st.live
  let st :=
    if ok && (reason == REASON_SOFT_RESTART || decide (100 < st.live.reason)) then
      { st with promoted := st.live }
    else if ok && (reason == REASON_SOFT_WDT_RST || reason == REASON_EXCEPTION_RST ||
                   reason == REASON_WDT_RST) then
      let st := { st with promoted := st.live }
      if st.promoted.epc1 != 0 && update then
        let rst' :=
          { st.rst with
            epc1 := st.promoted.epc1
            reason := st.promoted.reason
            exccause := st.promoted.exccause }
        { st with rst := rst' }
      else st
    else { st with promoted := zeroAbendInfo }
  { st with live := { zeroAbendInfo with last := now } }

/-- The boot-time installer `abendHandlerInstall` (AbendHandler.cpp lines
374-444): when no debugger is attached (`gdb = false`), install the handler
patches; in every case run the promotion pass. -/
def abendHandlerInstall (gdb update : Bool) (now : Nat) (st : SystemState) : SystemState :=
  promotionPass update now (if gdb then st else installHandlers st)

/-! Heap monitor (`ABENDINFO_HEAP_MONITOR`), AbendHandler.cpp lines 534-558. -/

def kCheckIntervalMs : Nat := 1000

def kResetTriggerCount : Nat := 60

def kHeapLowTrigger : Nat := 4 * 1024

/-- Truncation to an unsigned 32-bit value. -/
def u32 (x : Nat) : Nat := x % 2 ^ 32

/-- Unsigned 32-bit subtraction `a - b` as performed on `uint32_t`. -/
def u32sub (a b : Nat) : Nat := (u32 a + 2 ^ 32 - u32 b) % 2 ^ 32

/-- Heap statistics sampling `abendUpdateHeapStats` (AbendHandler.cpp lines
215-219); the three allocator counters are external inputs. -/
def abendUpdateHeapStats (r : AbendInfo) (oom heapFree heapMin : Nat) : AbendInfo :=
  { r with oom := oom, heap := heapFree, heap_min := heapMin }

/-- The chronically-low-heap check `abendIsHeapOK` (AbendHandler.cpp lines
545-558).  `now` is `millis()` (a 32-bit value); the allocator counters are
external inputs.  Returns the boolean result and the updated live record. -/
def abendIsHeapOK (r : AbendInfo) (now oom heapFree heapMin : Nat) : Bool × AbendInfo :=
  let nowU := u32 now
  if kCheckIntervalMs < u32sub nowU r.last then
    let r := abendUpdateHeapStats r oom heapFree heapMin
    let r :=
      if r.heap < kHeapLowTrigger then { r with low_count := u32 (r.low_count + 1) }
      else { r with low_count := 0 }
    let r := { r with last := nowU }
    (decide (r.low_count < kResetTriggerCount), r)
  else (decide (r.low_count < kResetTriggerCount), r)

/-- Well-formed last-gasp buffer: some cell inside the buffer holds the NUL
terminator, so the contents form a valid terminated string. -/
def gaspTerminated (r : AbendInfo) : Prop :=
  ∃ k, k < gaspSize ∧ r.gasp[k]? = some 0

/-! Concrete inputs used by witnesses and counterexamples. -/

/-- Sample live record before checksumming: a software-exception reset
(stack smash, tag 253) with a captured fault address. -/
def liveTag253Base : AbendInfo :=
  { zeroAbendInfo with reason := REASON_USER_STACK_SMASH, epc1 := 0x40240000 }

/-- Live record with tag 253 and a matching checksum. -/
def liveTag253 : AbendInfo :=
  { liveTag253Base with crc := crcOfRecord liveTag253Base }

/-- Sample live record carrying reason tag exactly 100, before checksumming. -/
def liveTag100Base : AbendInfo :=
  { zeroAbendInfo with reason := 100, epc1 := 0x40240000 }

/-- Live record with tag exactly 100 and a matching checksum. -/
def liveTag100 : AbendInfo :=
  { liveTag100Base with crc := crcOfRecord liveTag100Base }

/-- A baseline system state: ROM-default exception table, unified handler at
an arbitrary address, flash-resident putc1 hook, nonzero residual registers,
power-on reset reason. -/
def stBase : SystemState :=
  { excTable := List.replicate 64 ROM_xtos_unhandled_exception, cHandler0 := 7
    debugVector := 0, putc1 := 0x40210000, putc2 := 0, epc2 := 1, epc3 := 2
    excsave2 := 3, depc := 4, live := zeroAbendInfo, promoted := zeroAbendInfo
    rst := { reason := REASON_DEFAULT_RST, exccause := 0, epc1 := 0, epc2 := 0 } }

/-- Power-on boot holding a checksummed live record with tag 253. -/
def stPowerOn253 : SystemState :=
  { stBase with live := liveTag253 }

/-- Power-on boot holding a checksummed live record with tag exactly 100. -/
def stPowerOn100 : SystemState :=
  { stBase with live := liveTag100 }

/-- External-reset boot holding a checksummed live record with tag 253. -/
def stExt253 : SystemState :=
  { stBase with
    live := liveTag253
    rst := { reason := REASON_EXT_SYS_RST, exccause := 0, epc1 := 0, epc2 := 0 } }

/-- Exception-reset boot holding a checksummed live record with tag 253. -/
def stExn253 : SystemState :=
  { stBase with
    live := liveTag253
    rst := { reason := REASON_EXCEPTION_RST, exccause := 0, epc1 := 0x4024abcd, epc2 := 0 } }

/-- Code memory holding the self-loop encoding `06 ff ff` at 0x40200000 and
zeros elsewhere. -/
def memSelfLoop : Nat → Nat := fun a =>
  if a = 0x40200000 then 0x06
  else if a = 0x40200001 then 0xff
  else if a = 0x40200002 then 0xff
  else 0

/-- Live record that already captured a self-loop at 0x40100000. -/
def liveLoopCaptured : AbendInfo :=
  { zeroAbendInfo with epc1 := 0x40100000, intlevel := 3, idx := 5 }

/-- A 64-entry exception table holding an arbitrary non-default handler (5)
everywhere except slot 3, which still holds the Boot ROM default. -/
def tblWitness : List Nat :=
  (List.replicate 64 5).set 3 ROM_xtos_unhandled_exception

/-- Characterization of the promoted record computed by `promotionPass`,
as a function of the live record and the boot's reset reason (proved equal
to the pass's output in `promotionPass_promoted` below). -/
def promotedResult (st : SystemState) : AbendInfo :=
  if abendCrcOK st.live &&
      (st.rst.reason == REASON_SOFT_RESTART || decide (100 < st.live.reason)) then
    st.live
  else if abendCrcOK st.live &&
      (st.rst.reason == REASON_SOFT_WDT_RST || st.rst.reason == REASON_EXCEPTION_RST ||
       st.rst.reason == REASON_WDT_RST) then
    st.live
  else zeroAbendInfo

/-! Helper lemmas. -/

set_option maxRecDepth 10000

/-- The last-gasp hook never touches the captured fault address. -/
theorem gaspPutc_epc1 (r : AbendInfo) (c : Nat) : (gaspPutc r c).epc1 = r.epc1 := by
  unfold gaspPutc
  split
  · rfl
  · split <;> rfl

/-- Feeding any character sequence through the last-gasp hook never touches
the captured fault address. -/
theorem foldl_gaspPutc_epc1 (msg : List Nat) (l : AbendInfo) :
    (msg.foldl gaspPutc l).epc1 = l.epc1 := by
  induction msg generalizing l with
  | nil => rfl
  | cons c rest ih => rw [List.foldl_cons, ih, gaspPutc_epc1]

/-- C6: once the live record's fault address is nonzero, every further call
of the intercepted `ets_printf` leaves it unchanged — the self-loop detection
is skipped (no forced fault), and the first captured address survives no
matter what code the call returns to or what text it prints. -/
theorem C6_first_event_authoritative (live : AbendInfo) (msg : List Nat)
    (retAddr : Nat) (mem : Nat → Nat) (ps : Nat) (h : live.epc1 ≠ 0) :
    (etsPrintfStep live msg retAddr mem ps).2 = false ∧
    (etsPrintfStep live msg retAddr mem ps).1.epc1 = live.epc1 := by
  have hb : (live.epc1 == 0) = false := by
    simpa using h
  constructor
  · simp [etsPrintfStep, hb]
  · simp [etsPrintfStep, hb, foldl_gaspPutc_epc1]

/-- Witness for C6: with 0x40100000 already captured, a further call
returning to a distinct self-loop at 0x40200000 leaves the stored address at
0x40100000 and does not force a fault; a fresh record at the same call site
would have captured 0x40200000. -/
theorem C6_first_event_authoritative_witness :
    liveLoopCaptured.epc1 ≠ 0 ∧
    ((etsPrintfStep liveLoopCaptured [] 0x40200000 memSelfLoop 0).2 = false ∧
     (etsPrintfStep liveLoopCaptured [] 0x40200000 memSelfLoop 0).1.epc1 =
       liveLoopCaptured.epc1) ∧
    (etsPrintfStep liveLoopCaptured [] 0x40200000 memSelfLoop 0).1.epc1 = 0x40100000 ∧
    (etsPrintfStep zeroAbendInfo [] 0x40200000 memSelfLoop 0).1.epc1 = 0x40200000 :=
  ⟨by decide,
   C6_first_event_authoritative liveLoopCaptured [] 0x40200000 memSelfLoop 0 (by decide),
   by decide, by decide⟩

/-- C7: the last-gasp buffering function is memory safe — it preserves the
buffer size, every cell it changes lies strictly inside the 64-byte buffer,
a NUL terminator remains inside the buffer after every call, a full buffer
(fewer than two free bytes, index at or past 62) truncates by leaving the
record untouched, and carriage return or line feed characters are never
stored. -/
theorem C7_gasp_putc_safe (r : AbendInfo) (c : Nat)
    (hlen : r.gasp.length = 64) (hterm : gaspTerminated r) :
    (gaspPutc r c).gasp.length = 64 ∧
    gaspTerminated (gaspPutc r c) ∧
    (∀ j, (gaspPutc r c).gasp[j]? ≠ r.gasp[j]? → j < 64) ∧
    (gaspSize - 2 ≤ r.idx → gaspPutc r c = r) ∧
    (c = 13 ∨ c = 10 → gaspPutc r c = r) := by
  unfold gaspPutc
  split
  · exact ⟨hlen, hterm, fun j hj => absurd rfl hj, fun _ => rfl, fun _ => rfl⟩
  · rename_i hidx
    have hidx' : r.idx + 1 < 64 := by
      simp only [gaspSize] at hidx
      omega
    split
    · rename_i hc
      refine ⟨?_, ?_, ?_, ?_, ?_⟩
      · simp [hlen]
      · refine ⟨r.idx + 1, ?_, ?_⟩
        · simpa [gaspSize] using hidx'
        · exact List.getElem?_set_eq_of_lt 0 (by simpa [hlen] using hidx')
      · intro j hj
        by_cases h1 : j = r.idx
        · omega
        · by_cases h2 : j = r.idx + 1
          · omega
          · exfalso
            apply hj
            simp only
            rw [List.getElem?_set_ne (by omega), List.getElem?_set_ne (by omega)]
      · intro habs
        omega
      · intro habs
        simp only [Bool.and_eq_true, bne_iff_ne, ne_eq] at hc
        rcases habs with h13 | h10
        · exact absurd h13 hc.1
        · exact absurd h10 hc.2
    · exact ⟨hlen, hterm, fun j hj => absurd rfl hj, fun habs => by omega, fun _ => rfl⟩

/-- Witness for C7: feeding a printable character to a freshly zeroed record
satisfies the hypotheses, and the safety conclusions hold there. -/
theorem C7_gasp_putc_safe_witness :
    zeroAbendInfo.gasp.length = 64 ∧ gaspTerminated zeroAbendInfo ∧
    ((gaspPutc zeroAbendInfo 65).gasp.length = 64 ∧
     gaspTerminated (gaspPutc zeroAbendInfo 65) ∧
     (∀ j, (gaspPutc zeroAbendInfo 65).gasp[j]? ≠ zeroAbendInfo.gasp[j]? → j < 64) ∧
     (gaspSize - 2 ≤ zeroAbendInfo.idx → gaspPutc zeroAbendInfo 65 = zeroAbendInfo) ∧
     (65 = 13 ∨ 65 = 10 → gaspPutc zeroAbendInfo 65 = zeroAbendInfo)) :=
  ⟨by decide, ⟨0, by decide, by decide⟩,
   C7_gasp_putc_safe zeroAbendInfo 65 (by decide) ⟨0, by decide, by decide⟩⟩

/-- C4: for an exception reset with cause 20 (instruction fetch prohibited)
whose fault address lies outside valid instruction memory
[0x40000000, 0x40300000), the classifier reports the return-address register
excsave1 as the location instead of the invalid call target, for every such
out-of-range address. -/
theorem C4_null_call_uses_return_address (rst : RstInfo) (live : AbendInfo)
    (excsave1 oom heapFree heapMin micros : Nat)
    (hreason : rst.reason = REASON_EXCEPTION_RST) (hcause : rst.exccause = 20)
    (hpc : ¬(0x40000000 ≤ rst.epc1 ∧ rst.epc1 < 0x40300000)) :
    (customCrashCallback rst live excsave1 oom heapFree heapMin micros).1.epc1 =
      excsave1 := by
  have hv : is_pc_valid rst.epc1 = false := by
    simp only [is_pc_valid, decide_eq_false_iff_not]
    intro h
    exact hpc ⟨h.1, by omega⟩
  simp [customCrashCallback, hreason, hcause, hv, REASON_EXCEPTION_RST]

/-- Witness for C4: two distinct out-of-range fault addresses (0, the null
call target, and 0x50000000, past the instruction region) both yield the
return-address-derived location 0x40250000. -/
theorem C4_null_call_uses_return_address_witness :
    ((⟨2, 20, 0, 0⟩ : RstInfo).reason = REASON_EXCEPTION_RST ∧
     (⟨2, 20, 0, 0⟩ : RstInfo).exccause = 20 ∧
     ¬(0x40000000 ≤ (⟨2, 20, 0, 0⟩ : RstInfo).epc1 ∧
       (⟨2, 20, 0, 0⟩ : RstInfo).epc1 < 0x40300000) ∧
     (customCrashCallback ⟨2, 20, 0, 0⟩ zeroAbendInfo 0x40250000 0 0 0 0).1.epc1 =
       0x40250000) ∧
    ((customCrashCallback ⟨2, 20, 0x50000000, 0⟩ zeroAbendInfo
        0x40250000 0 0 0 0).1.epc1 = 0x40250000) :=
  ⟨⟨by decide, by decide, by decide,
    C4_null_call_uses_return_address ⟨2, 20, 0, 0⟩ zeroAbendInfo
      0x40250000 0 0 0 0 rfl rfl (by decide)⟩,
   C4_null_call_uses_return_address ⟨2, 20, 0x50000000, 0⟩ zeroAbendInfo
      0x40250000 0 0 0 0 rfl rfl (by decide)⟩

/-- C5: for an exception reset with cause 0 (illegal instruction), no pending
breakpoint (epc2 = 0) and no pending SDK-panic address in the live record:
a fault address equal to the Boot ROM divide trap 0x4000dce5 is reclassified
to divide-by-zero (cause 6) with the caller's return address excsave1 as
location; any other fault address keeps cause 0 and its own address. -/
theorem C5_divide_by_zero_disambiguation (rst : RstInfo) (live : AbendInfo)
    (excsave1 oom heapFree heapMin micros : Nat)
    (hreason : rst.reason = REASON_EXCEPTION_RST) (hcause : rst.exccause = 0)
    (hbp : rst.epc2 = 0) (hlive : live.epc1 = 0) :
    (rst.epc1 = divide_by_0_exception →
      (customCrashCallback rst live excsave1 oom heapFree heapMin micros).1.exccause = 6 ∧
      (customCrashCallback rst live excsave1 oom heapFree heapMin micros).1.epc1 =
        excsave1) ∧
    (rst.epc1 ≠ divide_by_0_exception →
      (customCrashCallback rst live excsave1 oom heapFree heapMin micros).1.exccause = 0 ∧
      (customCrashCallback rst live excsave1 oom heapFree heapMin micros).1.epc1 =
        rst.epc1) := by
  constructor
  · intro hdz
    constructor <;>
      simp [customCrashCallback, hreason, hcause, hbp, hlive, hdz,
        REASON_EXCEPTION_RST]
  · intro hdz
    constructor <;>
      simp [customCrashCallback, hreason, hcause, hbp, hlive, hdz,
        REASON_EXCEPTION_RST]

/-- Witness for C5: at the ROM trap address the fault becomes divide-by-zero
located at the caller's return address 0x40241000; at a different address
the classification stays generic illegal instruction. -/
theorem C5_divide_by_zero_disambiguation_witness :
    ((⟨2, 0, 0x4000dce5, 0⟩ : RstInfo).reason = REASON_EXCEPTION_RST ∧
     zeroAbendInfo.epc1 = 0 ∧
     (customCrashCallback ⟨2, 0, 0x4000dce5, 0⟩ zeroAbendInfo
        0x40241000 0 0 0 0).1.exccause = 6 ∧
     (customCrashCallback ⟨2, 0, 0x4000dce5, 0⟩ zeroAbendInfo
        0x40241000 0 0 0 0).1.epc1 = 0x40241000) ∧
    ((customCrashCallback ⟨2, 0, 0x40100000, 0⟩ zeroAbendInfo
        0x40241000 0 0 0 0).1.exccause = 0 ∧
     (customCrashCallback ⟨2, 0, 0x40100000, 0⟩ zeroAbendInfo
        0x40241000 0 0 0 0).1.epc1 = 0x40100000) :=
  have h1 := (C5_divide_by_zero_disambiguation ⟨2, 0, 0x4000dce5, 0⟩ zeroAbendInfo
    0x40241000 0 0 0 0 rfl rfl rfl rfl).1 (by decide)
  have h2 := (C5_divide_by_zero_disambiguation ⟨2, 0, 0x40100000, 0⟩ zeroAbendInfo
    0x40241000 0 0 0 0 rfl rfl rfl rfl).2 (by decide)
  ⟨⟨by decide, by decide, h1.1, h1.2⟩, h2⟩

/-- The promotion pass always ends by zeroing the live record and setting
the heap-monitor interval timestamp to the current `millis()` sample. -/
theorem promotionPass_live (u : Bool) (now : Nat) (st : SystemState) :
    (promotionPass u now st).live = { zeroAbendInfo with last := now } := rfl

/-- The promoted record computed by the promotion pass, characterized as a
function of the live record's checksum and reason tag and of the boot's
reset reason. -/
theorem promotionPass_promoted (u : Bool) (now : Nat) (st : SystemState) :
    (promotionPass u now st).promoted = promotedResult st := by
  unfold promotionPass promotedResult
  simp only
  split
  · rfl
  · split
    · split <;> rfl
    · rfl

/-- The promotion pass leaves the exception table, the debug vector and the
putc hooks untouched. -/
theorem promotionPass_frame (u : Bool) (now : Nat) (st : SystemState) :
    (promotionPass u now st).excTable = st.excTable ∧
    (promotionPass u now st).debugVector = st.debugVector ∧
    (promotionPass u now st).putc1 = st.putc1 ∧
    (promotionPass u now st).putc2 = st.putc2 := by
  unfold promotionPass
  simp only
  refine ⟨?_, ?_, ?_, ?_⟩ <;>
    (split
     · rfl
     · split
       · split <;> rfl
       · rfl)

/-- The handler-installation block does not touch the fault records or the
platform reset info. -/
theorem installHandlers_records (st : SystemState) :
    (installHandlers st).live = st.live ∧
    (installHandlers st).promoted = st.promoted ∧
    (installHandlers st).rst = st.rst := by
  unfold installHandlers
  simp only
  split <;> exact ⟨rfl, rfl, rfl⟩

/-- The promoted record after `abendHandlerInstall`, for either debugger
state: the characterization `promotedResult` applied to the pre-call live
record and reset info. -/
theorem abendHandlerInstall_promoted (gdb u : Bool) (now : Nat) (st : SystemState) :
    (abendHandlerInstall gdb u now st).promoted = promotedResult st := by
  unfold abendHandlerInstall
  cases gdb with
  | true => rw [if_pos rfl, promotionPass_promoted]
  | false =>
      rw [if_neg (by simp), promotionPass_promoted]
      have h := installHandlers_records st
      unfold promotedResult
      rw [h.1, h.2.2]

/-- After `abendHandlerInstall`, for either debugger state, the live record
is zeroed except for the heap-monitor timestamp set to `now`. -/
theorem abendHandlerInstall_live (gdb u : Bool) (now : Nat) (st : SystemState) :
    (abendHandlerInstall gdb u now st).live = { zeroAbendInfo with last := now } := by
  unfold abendHandlerInstall
  exact promotionPass_live u now _

/-- C1 counterexample: a power-on boot (reset reason `REASON_DEFAULT_RST`)
whose live record has a matching checksum and
reason tag 253 does not leave the promoted record all-zero — the live record
is promoted, contradicting the claim that no promotion ever occurs on a
power-on reset. -/
theorem C1_counterexample_power_on_promotes :
    stPowerOn253.rst.reason = REASON_DEFAULT_RST ∧
    (abendHandlerInstall false false 0 stPowerOn253).promoted ≠ zeroAbendInfo ∧
    (abendHandlerInstall false false 0 stPowerOn253).promoted = stPowerOn253.live := by
  exact ⟨by decide, by decide, by decide⟩

/-- C1 amended: on a power-on reset the promoted record is left all-zero
unless the live record's checksum validates and its reason tag exceeds 100
(a software-raised exception), in which case the live record is promoted. -/
theorem C1_amended_power_on_gating (gdb upd : Bool) (now : Nat) (st : SystemState)
    (hreason : st.rst.reason = REASON_DEFAULT_RST) :
    (¬(abendCrcOK st.live = true ∧ 100 < st.live.reason) →
      (abendHandlerInstall gdb upd now st).promoted = zeroAbendInfo) ∧
    (abendCrcOK st.live = true → 100 < st.live.reason →
      (abendHandlerInstall gdb upd now st).promoted = st.live) := by
  have hchar := abendHandlerInstall_promoted gdb upd now st
  unfold promotedResult at hchar
  rw [hreason] at hchar
  constructor
  · intro hno
    rw [hchar]
    by_cases hok : abendCrcOK st.live = true
    · have htag : ¬(100 < st.live.reason) := fun ht => hno ⟨hok, ht⟩
      simp [hok, htag, REASON_DEFAULT_RST, REASON_SOFT_RESTART, REASON_SOFT_WDT_RST,
        REASON_EXCEPTION_RST, REASON_WDT_RST]
    · have hok' : abendCrcOK st.live = false := by
        simpa using hok
      simp [hok']
  · intro hok htag
    rw [hchar]
    simp [hok, htag]

/-- Witness for C1 amended: on a power-on boot with an invalid (all-zero)
live record the promoted record is zeroed; with a valid tag-253 record it is
promoted. -/
theorem C1_amended_power_on_gating_witness :
    stBase.rst.reason = REASON_DEFAULT_RST ∧
    ¬(abendCrcOK stBase.live = true ∧ 100 < stBase.live.reason) ∧
    (abendHandlerInstall false false 0 stBase).promoted = zeroAbendInfo ∧
    ((abendHandlerInstall true true 3 stPowerOn253).promoted = stPowerOn253.live) :=
  ⟨by decide, by decide,
   (C1_amended_power_on_gating false false 0 stBase (by decide)).1 (by decide),
   (C1_amended_power_on_gating true true 3 stPowerOn253 (by decide)).2
     (by decide) (by decide)⟩

/-- C2 counterexample: a live record with a matching checksum and reason tag
exactly 100 is not promoted on a power-on boot — the promoted record is
zeroed instead of receiving a copy of the live record, refuting the claim's
"including exactly tag == 100". -/
theorem C2_counterexample_tag_100_not_promoted :
    abendCrcOK stPowerOn100.live = true ∧
    stPowerOn100.live.reason = 100 ∧
    (abendHandlerInstall false false 0 stPowerOn100).promoted ≠ stPowerOn100.live ∧
    (abendHandlerInstall false false 0 stPowerOn100).promoted = zeroAbendInfo := by
  exact ⟨by decide, by decide, by decide, by decide⟩

/-- C2 amended: when the live record's checksum validates and its reason tag
is strictly greater than 100 (the software-raised tags are 101, 253, 254),
the promotion pass copies the live record into the promoted record for every
value of the platform's reset reason; at tag exactly 100 the tag-based rule
does not fire. -/
theorem C2_amended_tag_above_100_promotes (gdb upd : Bool) (now : Nat)
    (st : SystemState) (hok : abendCrcOK st.live = true)
    (htag : 100 < st.live.reason) :
    (abendHandlerInstall gdb upd now st).promoted = st.live := by
  rw [abendHandlerInstall_promoted]
  unfold promotedResult
  simp [hok, htag]

/-- Witness for C2 amended: an external-reset boot (reason 6, not one of the
qualifying hardware reset reasons) still promotes a valid live record with
tag 253. -/
theorem C2_amended_tag_above_100_promotes_witness :
    abendCrcOK stExt253.live = true ∧
    100 < stExt253.live.reason ∧
    stExt253.rst.reason = REASON_EXT_SYS_RST ∧
    (abendHandlerInstall false false 0 stExt253).promoted = stExt253.live :=
  ⟨by decide, by decide, by decide,
   C2_amended_tag_above_100_promotes false false 0 stExt253 (by decide) (by decide)⟩

/-- C3 counterexample: after an exception-reset boot with a valid live
record, the live record is not left all-zero at the end of the pass — the
heap-monitor interval timestamp is re-initialized to the current `millis()`
sample (5 here), refuting the unconditional "live record is zeroed"
conjunct of the claim in the heap-monitor configuration. -/
theorem C3_counterexample_live_not_all_zero :
    stExn253.rst.reason = REASON_EXCEPTION_RST ∧
    abendCrcOK stExn253.live = true ∧
    (abendHandlerInstall false false 5 stExn253).live ≠ zeroAbendInfo := by
  exact ⟨by decide, by decide, by decide⟩

/-- C3 amended: on an exception-reset boot with a checksum-valid live record
the promoted record equals the live record exactly; and on every boot the
live record ends the pass all-zero except for the heap-monitor interval
timestamp, which is set to the boot's `millis()` sample. -/
theorem C3_amended_exception_promotes_live_reinit (gdb upd : Bool) (now : Nat)
    (st : SystemState) :
    (abendHandlerInstall gdb upd now st).live = { zeroAbendInfo with last := now } ∧
    (st.rst.reason = REASON_EXCEPTION_RST → abendCrcOK st.live = true →
      (abendHandlerInstall gdb upd now st).promoted = st.live) := by
  constructor
  · exact abendHandlerInstall_live gdb upd now st
  · intro hr hok
    rw [abendHandlerInstall_promoted]
    unfold promotedResult
    rw [hr]
    rcases Nat.lt_or_ge 100 st.live.reason with htag | htag
    · simp [hok, htag]
    · have htag' : ¬(100 < st.live.reason) := by omega
      simp [hok, htag', REASON_EXCEPTION_RST, REASON_SOFT_RESTART,
        REASON_SOFT_WDT_RST, REASON_WDT_RST]

/-- Witness for C3 amended: the exception-reset state with a valid tag-253
live record and `millis() = 5` promotes the live record and leaves the live
record zero except its timestamp. -/
theorem C3_amended_exception_promotes_live_reinit_witness :
    stExn253.rst.reason = REASON_EXCEPTION_RST ∧
    abendCrcOK stExn253.live = true ∧
    (abendHandlerInstall false false 5 stExn253).live =
      { zeroAbendInfo with last := 5 } ∧
    (abendHandlerInstall false false 5 stExn253).promoted = stExn253.live :=
  have h := C3_amended_exception_promotes_live_reinit false false 5 stExn253
  ⟨by decide, by decide, h.1, h.2 (by decide) (by decide)⟩

/-- C8: with a debugger attached, `abendHandlerInstall` performs none of the
handler installations — the exception-handler table, the debug exception
vector and both putc hooks are unchanged — while the whole call is exactly
the record-promotion pass, which still runs. -/
theorem C8_gdb_present_skips_installs (upd : Bool) (now : Nat) (st : SystemState) :
    (abendHandlerInstall true upd now st).excTable = st.excTable ∧
    (abendHandlerInstall true upd now st).debugVector = st.debugVector ∧
    (abendHandlerInstall true upd now st).putc1 = st.putc1 ∧
    (abendHandlerInstall true upd now st).putc2 = st.putc2 ∧
    abendHandlerInstall true upd now st = promotionPass upd now st := by
  have he : abendHandlerInstall true upd now st = promotionPass upd now st := by
    unfold abendHandlerInstall
    rw [if_pos rfl]
  have hf := promotionPass_frame upd now st
  exact ⟨he ▸ hf.1, he ▸ hf.2.1, he ▸ hf.2.2.1, he ▸ hf.2.2.2, he⟩

/-- One loop iteration preserves the table length. -/
theorem replaceStep_length (unified : Nat) (t : List Nat) (j : Nat) :
    (replaceStep unified t j).length = t.length := by
  unfold replaceStep replace_exception_handler_on_match xtosSetExceptionHandler
  split <;> simp

/-- The whole loop preserves the table length. -/
theorem install_aux_length (unified n : Nat) (t : List Nat) :
    ((List.range n).foldl (replaceStep unified) t).length = t.length := by
  induction n with
  | zero => rfl
  | succ n ih =>
      rw [List.range_succ, List.foldl_append, List.foldl_cons, List.foldl_nil,
        replaceStep_length, ih]

/-- One loop iteration leaves every other slot unchanged. -/
theorem replaceStep_entry_ne (unified : Nat) (t : List Nat) (j i : Nat) (h : i ≠ j) :
    tblEntry (replaceStep unified t j) i = tblEntry t i := by
  unfold replaceStep replace_exception_handler_on_match xtosSetExceptionHandler tblEntry
  split
  · rw [List.getElem?_set_ne (Ne.symm h)]
  · rfl

/-- One loop iteration replaces its own slot exactly when it still holds the
ROM default. -/
theorem replaceStep_entry_self (unified : Nat) (t : List Nat) (j : Nat)
    (h : j < t.length) :
    tblEntry (replaceStep unified t j) j =
      if tblEntry t j = ROM_xtos_unhandled_exception then unified
      else tblEntry t j := by
  unfold replaceStep replace_exception_handler_on_match xtosSetExceptionHandler
  have h0 : (ROM_xtos_unhandled_exception == 0) = false := by decide
  rw [h0, Bool.or_false]
  by_cases hr : tblEntry t j = ROM_xtos_unhandled_exception
  · rw [if_pos (by simp [hr]), if_pos hr]
    unfold tblEntry
    rw [List.getElem?_set_eq_of_lt unified h]
    rfl
  · rw [if_neg (by simp [hr]), if_neg hr]

/-- After the first `n` loop iterations, slot `i` is redirected exactly when
`i < n` and the slot held the ROM default; every other slot is unchanged. -/
theorem install_aux_entry (unified n : Nat) (t : List Nat) (i : Nat)
    (hi : i < t.length) :
    tblEntry ((List.range n).foldl (replaceStep unified) t) i =
      if i < n ∧ tblEntry t i = ROM_xtos_unhandled_exception then unified
      else tblEntry t i := by
  induction n with
  | zero => simp
  | succ n ih =>
      rw [List.range_succ, List.foldl_append, List.foldl_cons, List.foldl_nil]
      by_cases hin : i = n
      · subst hin
        have hself : tblEntry ((List.range i).foldl (replaceStep unified) t) i =
            tblEntry t i := by
          rw [ih]
          simp
        rw [replaceStep_entry_self unified _ i (by rw [install_aux_length]; exact hi),
          hself]
        by_cases hrom : tblEntry t i = ROM_xtos_unhandled_exception
        · simp [hrom]
        · simp [hrom]
      · rw [replaceStep_entry_ne unified _ n i hin, ih]
        by_cases hlt : i < n
        · have hlt' : i < n + 1 := by omega
          simp [hlt, hlt']
        · have hlt' : ¬(i < n + 1) := by omega
          simp [hlt, hlt']

/-- C9: after `install_unhandled_exception_handler`, each of the 64 slots
that held the Boot ROM default unhandled-exception handler (0x4000dc44) is
redirected to the unified handler, and every slot holding anything else is
left unchanged; the table size is preserved. -/
theorem C9_default_slots_redirected (unified : Nat) (t : List Nat)
    (hlen : t.length = 64) (i : Nat) (hi : i < 64) :
    tblEntry (install_unhandled_exception_handler unified t) i =
      (if tblEntry t i = ROM_xtos_unhandled_exception then unified
       else tblEntry t i) ∧
    (install_unhandled_exception_handler unified t).length = 64 := by
  constructor
  · unfold install_unhandled_exception_handler
    rw [install_aux_entry unified 64 t i (by omega)]
    simp [hi]
  · unfold install_unhandled_exception_handler
    rw [install_aux_length, hlen]

/-- Witness for C9: in a table whose slot 3 holds the ROM default and whose
other slots hold the non-default handler 5, slot 3 is redirected to the
unified handler 7 and slot 4 stays at 5. -/
theorem C9_default_slots_redirected_witness :
    tblWitness.length = 64 ∧
    tblEntry (install_unhandled_exception_handler 7 tblWitness) 3 =
      (if tblEntry tblWitness 3 = ROM_xtos_unhandled_exception then 7
       else tblEntry tblWitness 3) ∧
    tblEntry (install_unhandled_exception_handler 7 tblWitness) 4 =
      (if tblEntry tblWitness 4 = ROM_xtos_unhandled_exception then 7
       else tblEntry tblWitness 4) ∧
    tblEntry (install_unhandled_exception_handler 7 tblWitness) 3 = 7 ∧
    tblEntry (install_unhandled_exception_handler 7 tblWitness) 4 = 5 :=
  ⟨by decide,
   (C9_default_slots_redirected 7 tblWitness (by decide) 3 (by decide)).1,
   (C9_default_slots_redirected 7 tblWitness (by decide) 4 (by decide)).1,
   by decide, by decide⟩

/-- C10: the heap check samples the heap at most once per check interval
(inside the interval the record, including all heap statistics, is
untouched and the result is computed from the stored counter); a sample with
free heap below the 4 KiB trigger increments the consecutive-low counter, a
sample at or above it resets the counter to zero (and every sample stores
the free-heap value and the sample time); and the call returns true exactly
when the resulting counter is below the 60-sample reset trigger. -/
theorem C10_heap_check_spec (r : AbendInfo) (now oom heapFree heapMin : Nat) :
    (u32sub (u32 now) r.last ≤ kCheckIntervalMs →
      abendIsHeapOK r now oom heapFree heapMin =
        (decide (r.low_count < kResetTriggerCount), r)) ∧
    (kCheckIntervalMs < u32sub (u32 now) r.last → heapFree < kHeapLowTrigger →
      (abendIsHeapOK r now oom heapFree heapMin).2.low_count = u32 (r.low_count + 1) ∧
      (abendIsHeapOK r now oom heapFree heapMin).2.heap = heapFree ∧
      (abendIsHeapOK r now oom heapFree heapMin).2.last = u32 now) ∧
    (kCheckIntervalMs < u32sub (u32 now) r.last → kHeapLowTrigger ≤ heapFree →
      (abendIsHeapOK r now oom heapFree heapMin).2.low_count = 0) ∧
    ((abendIsHeapOK r now oom heapFree heapMin).1 = true ↔
      (abendIsHeapOK r now oom heapFree heapMin).2.low_count < kResetTriggerCount) := by
  unfold abendIsHeapOK abendUpdateHeapStats
  simp only
  by_cases hint : kCheckIntervalMs < u32sub (u32 now) r.last
  · rw [if_pos hint]
    by_cases hlow : heapFree < kHeapLowTrigger
    · rw [if_pos hlow]
      refine ⟨fun h => absurd hint (by omega), fun _ _ => ⟨rfl, rfl, rfl⟩,
        fun _ h => absurd hlow (by omega), ?_⟩
      simp
    · rw [if_neg hlow]
      refine ⟨fun h => absurd hint (by omega), fun _ h => absurd h hlow,
        fun _ _ => rfl, ?_⟩
      simp
  · rw [if_neg hint]
    refine ⟨fun _ => rfl, fun h => absurd h hint, fun h => absurd h hint, ?_⟩
    simp

/-- Witness for C10: from a fresh record, a sample at t = 1500 ms with 100
bytes free increments the counter to one and returns true; a call at
t = 800 ms (and also one at exactly t = 1000 ms) changes nothing. -/
theorem C10_heap_check_spec_witness :
    ((abendIsHeapOK zeroAbendInfo 1500 2 100 50).2.low_count =
      u32 (zeroAbendInfo.low_count + 1)) ∧
    ((abendIsHeapOK zeroAbendInfo 1500 2 100 50).2.heap = 100) ∧
    (abendIsHeapOK zeroAbendInfo 800 2 100 50 =
      (decide (zeroAbendInfo.low_count < kResetTriggerCount), zeroAbendInfo)) ∧
    (abendIsHeapOK zeroAbendInfo 1000 2 100 50 =
      (decide (zeroAbendInfo.low_count < kResetTriggerCount), zeroAbendInfo)) ∧
    ((abendIsHeapOK zeroAbendInfo 1500 2 100 50).1 = true ↔
      (abendIsHeapOK zeroAbendInfo 1500 2 100 50).2.low_count < kResetTriggerCount) :=
  have h1 := C10_heap_check_spec zeroAbendInfo 1500 2 100 50
  have h2 := C10_heap_check_spec zeroAbendInfo 800 2 100 50
  have h3 := C10_heap_check_spec zeroAbendInfo 1000 2 100 50
  have hs := h1.2.1 (by decide) (by decide)
  ⟨hs.1, hs.2.1, h2.1 (by decide), h3.1 (by decide), h1.2.2.2⟩

end Abend
